import Mathlib

/-!
Verification of the OpenPolicyAshBack ingestion core.

This file shallowly embeds the parts of the repository that the checked
properties talk about:

* `src/src/database/models.py` — the SQLAlchemy schema: enum types, row
  shapes, and the declared `UniqueConstraint`s, together with a reachability
  relation for database states in which the store admits exactly the
  transitions that satisfy the declared constraints (SQL semantics: a
  `UNIQUE` constraint never considers two NULLs equal).
* `src/src/database/config.py` — `DatabaseConfig.get_url`.
* `src/manage.py` — `load_jurisdictions` and the result printing/serialisation
  of `run_scrapers`.
* The orchestration core (Scraper Manager, Run Tracker, Ingestion Writer)
  lives in `src/scrapers/manager.py`, which is not part of the source tree
  given here; those components are modelled from the specification and are
  marked `Modelled from the spec:` in their doc comments.

UUID primary keys and datetimes are modelled as `Nat`; JSON payload columns
as raw strings.
-/

namespace OpenPolicy

/-- `JurisdictionType` enum from models.py (lines 21-24). -/
inductive JurisdictionType where
  | FEDERAL
  | PROVINCIAL
  | MUNICIPAL
deriving DecidableEq

/-- `RepresentativeRole` enum from models.py (lines 26-34). -/
inductive RepresentativeRole where
  | MP
  | MPP
  | MLA
  | MNA
  | MAYOR
  | COUNCILLOR
  | REEVE
  | OTHER
deriving DecidableEq

/-- `BillStatus` enum from models.py (lines 36-45). -/
inductive BillStatus where
  | INTRODUCED
  | FIRST_READING
  | SECOND_READING
  | COMMITTEE
  | THIRD_READING
  | PASSED
  | ROYAL_ASSENT
  | FAILED
  | WITHDRAWN
deriving DecidableEq

/-- `EventType` enum from models.py (lines 47-52). -/
inductive EventType where
  | MEETING
  | VOTE
  | READING
  | COMMITTEE_MEETING
  | OTHER
deriving DecidableEq

/-- `VoteResult` enum from models.py (lines 54-58). -/
inductive VoteResult where
  | YES
  | NO
  | ABSTAIN
  | ABSENT
deriving DecidableEq

/-- A row of the `representatives` table (models.py lines 84-136).
Nullable columns are `Option`; `external_id` (line 120) has no
`nullable=False`, so it is nullable. -/
structure RepresentativeRow where
  id : Nat
  jurisdiction_id : Nat
  name : String
  first_name : Option String := none
  last_name : Option String := none
  role : RepresentativeRole
  party : Option String := none
  district : Option String := none
  email : Option String := none
  phone : Option String := none
  office_address : Option String := none
  website : Option String := none
  facebook_url : Option String := none
  twitter_url : Option String := none
  instagram_url : Option String := none
  linkedin_url : Option String := none
  term_start : Option Nat := none
  term_end : Option Nat := none
  photo_url : Option String := none
  biography : Option String := none
  source_url : Option String := none
  external_id : Option String := none
deriving DecidableEq

/-- A row of the `bills` table (models.py lines 138-179). `bill_number`
and `title` are `nullable=False`. -/
structure BillRow where
  id : Nat
  jurisdiction_id : Nat
  bill_number : String
  title : String
  summary : Option String := none
  full_text : Option String := none
  status : BillStatus
  introduced_date : Option Nat := none
  first_reading_date : Option Nat := none
  second_reading_date : Option Nat := none
  third_reading_date : Option Nat := none
  passed_date : Option Nat := none
  royal_assent_date : Option Nat := none
  legislative_body : Option String := none
  source_url : Option String := none
  external_id : Option String := none
deriving DecidableEq

/-- A row of the `bill_sponsorships` table (models.py lines 181-201). -/
structure BillSponsorshipRow where
  id : Nat
  bill_id : Nat
  representative_id : Nat
  is_primary_sponsor : Bool := false
  sponsorship_type : Option String := none
deriving DecidableEq

/-- A row of the `committee_memberships` table (models.py lines 229-249). -/
structure CommitteeMembershipRow where
  id : Nat
  committee_id : Nat
  representative_id : Nat
  role : Option String := none
  start_date : Option Nat := none
  end_date : Option Nat := none
deriving DecidableEq

/-- A row of the `votes` table (models.py lines 284-310). `event_id`,
`representative_id`, `vote_result`, `vote_date` are `nullable=False`;
`bill_id` is nullable. -/
structure VoteRow where
  id : Nat
  event_id : Nat
  bill_id : Option Nat := none
  representative_id : Nat
  vote_result : VoteResult
  vote_date : Nat
  source_url : Option String := none
deriving DecidableEq

/-- The database state over the tables the uniqueness claims range over. -/
structure DB where
  representatives : List RepresentativeRow := []
  bills : List BillRow := []
  votes : List VoteRow := []
  bill_sponsorships : List BillSponsorshipRow := []
  committee_memberships : List CommitteeMembershipRow := []
deriving DecidableEq

def DB.empty : DB := {}

/-- Violation of `uq_representative_external_id` =
`UniqueConstraint('jurisdiction_id', 'external_id')` (models.py line 135)
between two rows, under SQL semantics: a NULL `external_id` is never equal
to anything, so rows whose `external_id` is NULL never conflict. -/
def repConflict (r s : RepresentativeRow) : Bool :=
  r.jurisdiction_id == s.jurisdiction_id &&
    match r.external_id, s.external_id with
    | some a, some b => a == b
    | _, _ => false

/-- Violation of `uq_bill_number` =
`UniqueConstraint('jurisdiction_id', 'bill_number')` (models.py line 178);
both columns are NOT NULL. -/
def billConflict (r s : BillRow) : Bool :=
  r.jurisdiction_id == s.jurisdiction_id && r.bill_number == s.bill_number

/-- Violation of `uq_bill_sponsorship` =
`UniqueConstraint('bill_id', 'representative_id')` (models.py line 200). -/
def sponsorshipConflict (r s : BillSponsorshipRow) : Bool :=
  r.bill_id == s.bill_id && r.representative_id == s.representative_id

/-- Violation of `uq_event_representative_vote` =
`UniqueConstraint('event_id', 'representative_id')` (models.py line 309). -/
def voteConflict (r s : VoteRow) : Bool :=
  r.event_id == s.event_id && r.representative_id == s.representative_id

/-- No pair of distinct list positions violates the given conflict check. -/
def pairwiseOK (conflict : α → α → Bool) : List α → Bool
  | [] => true
  | x :: xs => xs.all (fun y => !(conflict x y)) && pairwiseOK conflict xs

/-- Primary-key freshness: all `id`s distinct. -/
def noDupIds : List Nat → Bool
  | [] => true
  | x :: xs => !(xs.contains x) && noDupIds xs

/-- All constraints declared in the schema's `__table_args__` hold, plus
primary-key uniqueness. The `committee_memberships` table declares only
indexes (models.py lines 246-249), no `UniqueConstraint`, so beyond its
primary key nothing is checked for it. -/
def dbConstraintsOK (db : DB) : Bool :=
  noDupIds (db.representatives.map (·.id)) &&
  pairwiseOK repConflict db.representatives &&
  noDupIds (db.bills.map (·.id)) &&
  pairwiseOK billConflict db.bills &&
  noDupIds (db.votes.map (·.id)) &&
  pairwiseOK voteConflict db.votes &&
  noDupIds (db.bill_sponsorships.map (·.id)) &&
  pairwiseOK sponsorshipConflict db.bill_sponsorships &&
  noDupIds (db.committee_memberships.map (·.id))

def DB.addRep (db : DB) (r : RepresentativeRow) : DB :=
  { db with representatives := r :: db.representatives }

def DB.addBill (db : DB) (r : BillRow) : DB :=
  { db with bills := r :: db.bills }

def DB.addVote (db : DB) (r : VoteRow) : DB :=
  { db with votes := r :: db.votes }

def DB.addSponsorship (db : DB) (r : BillSponsorshipRow) : DB :=
  { db with bill_sponsorships := r :: db.bill_sponsorships }

def DB.addMembership (db : DB) (r : CommitteeMembershipRow) : DB :=
  { db with committee_memberships := r :: db.committee_memberships }

/-- Reachable database states: starting from the empty store, the engine
admits an insert exactly when the resulting state satisfies every declared
constraint (the transactional store of the spec rejects violating writes;
updates re-check the same constraints, so insert steps capture the
constraint surface the uniqueness claims are about). -/
inductive Reachable : DB → Prop where
  | empty : Reachable DB.empty
  | insertRep (db : DB) (r : RepresentativeRow) (h : Reachable db)
      (hok : dbConstraintsOK (db.addRep r) = true) : Reachable (db.addRep r)
  | insertBill (db : DB) (r : BillRow) (h : Reachable db)
      (hok : dbConstraintsOK (db.addBill r) = true) : Reachable (db.addBill r)
  | insertVote (db : DB) (r : VoteRow) (h : Reachable db)
      (hok : dbConstraintsOK (db.addVote r) = true) : Reachable (db.addVote r)
  | insertSponsorship (db : DB) (r : BillSponsorshipRow) (h : Reachable db)
      (hok : dbConstraintsOK (db.addSponsorship r) = true) :
      Reachable (db.addSponsorship r)
  | insertMembership (db : DB) (r : CommitteeMembershipRow) (h : Reachable db)
      (hok : dbConstraintsOK (db.addMembership r) = true) :
      Reachable (db.addMembership r)

/-- `DatabaseConfig` from config.py (lines 12-19), with its field defaults. -/
structure DatabaseConfig where
  host : String := "localhost"
  port : Nat := 5432
  database : String := "opencivicdata"
  username : String := "ubuntu"
  password : Option String := none
deriving DecidableEq

/-- Python truthiness of an `Optional[str]`: `None` and `""` are falsy. -/
def pyTruthy : Option String → Bool
  | none => false
  | some s => !(s == "")

/-- `DatabaseConfig.get_url` from config.py (lines 21-26). -/
def DatabaseConfig.get_url (c : DatabaseConfig) : String :=
  if pyTruthy c.password then
    "postgresql://" ++ c.username ++ ":" ++ c.password.getD "" ++ "@" ++
      c.host ++ ":" ++ toString c.port ++ "/" ++ c.database
  else
    "postgresql://" ++ c.username ++ "@" ++ c.host ++ ":" ++
      toString c.port ++ "/" ++ c.database

/-! ### Bridge lemmas: the Boolean constraint checks imply the uniqueness
properties, for distinct rows. -/

theorem pairwiseOK_no_conflict {α : Type _} {conflict : α → α → Bool}
    (hsymm : ∀ a b, conflict a b = conflict b a) :
    ∀ {l : List α}, pairwiseOK conflict l = true →
      ∀ {x y : α}, x ∈ l → y ∈ l → x ≠ y → conflict x y = false := by
  intro l
  induction l with
  | nil =>
    intro _ x y hx
    simp at hx
  | cons a xs ih =>
    intro h x y hx hy hxy
    rw [pairwiseOK, Bool.and_eq_true, List.all_eq_true] at h
    obtain ⟨hall, hrest⟩ := h
    rcases List.mem_cons.mp hx with rfl | hx'
    · rcases List.mem_cons.mp hy with rfl | hy'
      · exact absurd rfl hxy
      · have hy'' := hall y hy'
        simpa using hy''
    · rcases List.mem_cons.mp hy with rfl | hy'
      · have hx'' := hall x hx'
        rw [hsymm]
        simpa using hx''
      · exact ih hrest hx' hy' hxy

theorem beq_symm {α : Type _} [BEq α] [LawfulBEq α] (a b : α) :
    (a == b) = (b == a) := by
  by_cases h : a = b
  · subst h; rfl
  · rw [beq_eq_false_iff_ne.mpr h, beq_eq_false_iff_ne.mpr (Ne.symm h)]

theorem repConflict_symm : ∀ a b, repConflict a b = repConflict b a := by
  intro a b
  simp only [repConflict]
  cases a.external_id <;> cases b.external_id <;>
    simp [Bool.and_comm, beq_symm]

theorem billConflict_symm : ∀ a b, billConflict a b = billConflict b a := by
  intro a b
  simp [billConflict, Bool.and_comm, beq_symm]

theorem voteConflict_symm : ∀ a b, voteConflict a b = voteConflict b a := by
  intro a b
  simp [voteConflict, Bool.and_comm, beq_symm]

theorem sponsorshipConflict_symm :
    ∀ a b, sponsorshipConflict a b = sponsorshipConflict b a := by
  intro a b
  simp [sponsorshipConflict, Bool.and_comm, beq_symm]

/-- Every reachable state passes every declared constraint check. -/
theorem reachable_ok {db : DB} (h : Reachable db) : dbConstraintsOK db = true := by
  induction h with
  | empty => rfl
  | insertRep db r h hok ih => exact hok
  | insertBill db r h hok ih => exact hok
  | insertVote db r h hok ih => exact hok
  | insertSponsorship db r h hok ih => exact hok
  | insertMembership db r h hok ih => exact hok

theorem dbConstraintsOK_split {db : DB} (h : dbConstraintsOK db = true) :
    pairwiseOK repConflict db.representatives = true ∧
    pairwiseOK billConflict db.bills = true ∧
    pairwiseOK voteConflict db.votes = true ∧
    pairwiseOK sponsorshipConflict db.bill_sponsorships = true := by
  simp only [dbConstraintsOK, Bool.and_eq_true] at h
  exact ⟨h.1.1.1.1.1.1.1.2, h.1.1.1.1.1.2, h.1.1.1.2, h.1.2⟩

/-- C1 (amended form): in every reachable state, two representative rows of
the same jurisdiction with the same non-NULL `external_id` are the same row;
two bill rows of the same jurisdiction with the same `bill_number` are the
same row; two vote rows with the same `(event_id, representative_id)` are
the same row. -/
theorem c1_uniqueness_amended (db : DB) (h : Reachable db) :
    (∀ r ∈ db.representatives, ∀ s ∈ db.representatives, ∀ v : String,
      r.jurisdiction_id = s.jurisdiction_id →
      r.external_id = some v → s.external_id = some v → r = s) ∧
    (∀ r ∈ db.bills, ∀ s ∈ db.bills,
      r.jurisdiction_id = s.jurisdiction_id → r.bill_number = s.bill_number →
      r = s) ∧
    (∀ r ∈ db.votes, ∀ s ∈ db.votes,
      r.event_id = s.event_id → r.representative_id = s.representative_id →
      r = s) := by
  obtain ⟨hrep, hbill, hvote, _⟩ := dbConstraintsOK_split (reachable_ok h)
  refine ⟨?_, ?_, ?_⟩
  · intro r hr s hs v hj hre hse
    by_contra hne
    have hc := pairwiseOK_no_conflict repConflict_symm hrep hr hs hne
    simp [repConflict, hj, hre, hse] at hc
  · intro r hr s hs hj hn
    by_contra hne
    have hc := pairwiseOK_no_conflict billConflict_symm hbill hr hs hne
    simp [billConflict, hj, hn] at hc
  · intro r hr s hs he hrep'
    by_contra hne
    have hc := pairwiseOK_no_conflict voteConflict_symm hvote hr hs hne
    simp [voteConflict, he, hrep'] at hc

/-- A representative row with NULL `external_id` (models.py line 120 leaves
`external_id` nullable). -/
def repA : RepresentativeRow :=
  { id := 1, jurisdiction_id := 7, name := "Alice Axon", role := .MP }

/-- A second representative row in the same jurisdiction, also with NULL
`external_id`. -/
def repB : RepresentativeRow :=
  { id := 2, jurisdiction_id := 7, name := "Bob Bylaw", role := .MP }

def repDupDB : DB := (DB.empty.addRep repA).addRep repB

/-- C1 counterexample: the state holding `repA` and `repB` is reachable —
`uq_representative_external_id` does not reject the second insert because
SQL unique constraints never treat two NULLs as equal — yet it contains two
distinct representative rows of the same jurisdiction whose `external_id`
columns are equal (both NULL), contradicting the claim as stated. -/
theorem c1_counterexample :
    Reachable repDupDB ∧
    repA ∈ repDupDB.representatives ∧ repB ∈ repDupDB.representatives ∧
    repA ≠ repB ∧
    repA.jurisdiction_id = repB.jurisdiction_id ∧
    repA.external_id = repB.external_id := by
  refine ⟨?_, by decide, by decide, by decide, rfl, rfl⟩
  exact Reachable.insertRep _ repB
    (Reachable.insertRep _ repA Reachable.empty (by decide)) (by decide)

/-- A representative row with a non-NULL `external_id`. -/
def repC : RepresentativeRow :=
  { id := 3, jurisdiction_id := 7, name := "Carol Charter", role := .MPP,
    external_id := some "ext-1" }

def oneRepDB : DB := DB.empty.addRep repC

/-- Witness for `c1_uniqueness_amended`: instantiated at the concrete
reachable state `oneRepDB` and the concrete row `repC`. -/
theorem c1_uniqueness_amended_witness : repC = repC :=
  (c1_uniqueness_amended oneRepDB
    (Reachable.insertRep _ repC Reachable.empty (by decide))).1
    repC (by decide) repC (by decide) "ext-1" rfl rfl rfl

/-- C2 (amended form): in every reachable state, `(bill_id,
representative_id)` identifies a BillSponsorship row (enforced by
`uq_bill_sponsorship`). The membership half of the claim fails, see
`c2_counterexample`. -/
theorem c2_sponsorship_amended (db : DB) (h : Reachable db) :
    ∀ r ∈ db.bill_sponsorships, ∀ s ∈ db.bill_sponsorships,
      r.bill_id = s.bill_id → r.representative_id = s.representative_id →
      r = s := by
  obtain ⟨_, _, _, hsp⟩ := dbConstraintsOK_split (reachable_ok h)
  intro r hr s hs hb hrep
  by_contra hne
  have hc := pairwiseOK_no_conflict sponsorshipConflict_symm hsp hr hs hne
  simp [sponsorshipConflict, hb, hrep] at hc

/-- A committee membership row. -/
def memA : CommitteeMembershipRow :=
  { id := 1, committee_id := 4, representative_id := 9 }

/-- A second membership row with the same `(committee_id,
representative_id)` pair but a different primary key. -/
def memB : CommitteeMembershipRow :=
  { id := 2, committee_id := 4, representative_id := 9, role := some "chair" }

def memDupDB : DB := (DB.empty.addMembership memA).addMembership memB

/-- C2 counterexample: `committee_memberships` declares no composite unique
constraint (models.py lines 246-249 list only two indexes), so a state with
two distinct membership rows sharing `(committee_id, representative_id)` is
reachable, contradicting the claim for CommitteeMembership. -/
theorem c2_counterexample :
    Reachable memDupDB ∧
    memA ∈ memDupDB.committee_memberships ∧
    memB ∈ memDupDB.committee_memberships ∧
    memA ≠ memB ∧
    memA.committee_id = memB.committee_id ∧
    memA.representative_id = memB.representative_id := by
  refine ⟨?_, by decide, by decide, by decide, rfl, rfl⟩
  exact Reachable.insertMembership _ memB
    (Reachable.insertMembership _ memA Reachable.empty (by decide)) (by decide)

/-- A bill sponsorship row. -/
def spA : BillSponsorshipRow := { id := 1, bill_id := 2, representative_id := 9 }

def oneSponsorshipDB : DB := DB.empty.addSponsorship spA

/-- Witness for `c2_sponsorship_amended`: instantiated at the concrete
reachable state `oneSponsorshipDB` and the concrete row `spA`. -/
theorem c2_sponsorship_amended_witness : spA = spA :=
  c2_sponsorship_amended oneSponsorshipDB
    (Reachable.insertSponsorship _ spA Reachable.empty (by decide))
    spA (by decide) spA (by decide) rfl rfl

/-! ### Column-level row validity for the provenance tables.

`ScrapingRun.run_type` and `ScrapingRun.status` are `String(50)` columns and
`DataQualityIssue.severity` is a `String(20)` column (models.py lines
319-320, 347-348): their intended value sets appear only in source
comments, not in the schema, so validity checks length bounds only.  The
NOT NULL columns are non-`Option` fields. -/

/-- Admissibility of a value in a `String(maxLen)` column. -/
def strOK (maxLen : Nat) (s : String) : Bool := decide (s.length ≤ maxLen)

/-- Admissibility of a value in a nullable `String(maxLen)` column. -/
def optStrOK (maxLen : Nat) : Option String → Bool
  | none => true
  | some s => strOK maxLen s

/-- A row of the `scraping_runs` table (models.py lines 313-339). -/
structure ScrapingRunRow where
  id : Nat
  jurisdiction_id : Nat
  run_type : String
  status : String
  start_time : Nat
  end_time : Option Nat := none
  records_processed : Nat := 0
  records_created : Nat := 0
  records_updated : Nat := 0
  errors_count : Nat := 0
  error_log : Option String := none
  summary : Option String := none
deriving DecidableEq

/-- Everything the schema checks about a `scraping_runs` row's string
columns: `run_type` and `status` are `String(50)`, nothing more. -/
def scrapingRunRowValid (r : ScrapingRunRow) : Bool :=
  strOK 50 r.run_type && strOK 50 r.status

/-- A row of the `data_quality_issues` table (models.py lines 341-363). -/
structure DataQualityIssueRow where
  id : Nat
  jurisdiction_id : Nat
  issue_type : String
  severity : String
  description : String
  affected_table : Option String := none
  affected_record_id : Option String := none
  detected_at : Nat
  resolved_at : Option Nat := none
  resolution_notes : Option String := none
deriving DecidableEq

/-- Everything the schema checks about a `data_quality_issues` row's string
columns: `issue_type` is `String(100)`, `severity` is `String(20)`, the two
affected-record columns are nullable `String(100)`. -/
def dataQualityIssueRowValid (r : DataQualityIssueRow) : Bool :=
  strOK 100 r.issue_type && strOK 20 r.severity &&
  optStrOK 100 r.affected_table && optStrOK 100 r.affected_record_id

/-- A `scraping_runs` row whose `run_type` and `status` are outside the
documented value sets. -/
def bogusRun : ScrapingRunRow :=
  { id := 1, jurisdiction_id := 7, run_type := "cosmic", status := "paused",
    start_time := 0 }

/-- A `data_quality_issues` row whose `severity` is outside the documented
value set. -/
def bogusIssue : DataQualityIssueRow :=
  { id := 1, jurisdiction_id := 7, issue_type := "missing_field",
    severity := "catastrophic", description := "severity out of range",
    detected_at := 0 }

/-- C3 counterexample: `run_type`/`status`/`severity` are open `String`
columns, so a row with values outside {scheduled, manual, test} ×
{running, completed, failed} and severity outside {low, medium, high,
critical} is schema-valid, contradicting the claim that no other value is
representable. -/
theorem c3_counterexample :
    scrapingRunRowValid bogusRun = true ∧
    bogusRun.run_type ∉ ["scheduled", "manual", "test"] ∧
    bogusRun.status ∉ ["running", "completed", "failed"] ∧
    dataQualityIssueRowValid bogusIssue = true ∧
    bogusIssue.severity ∉ ["low", "medium", "high", "critical"] := by
  decide

/-- C3 (amended): the columns declared with `Enum(...)` in models.py are
closed — every value of `VoteResult` and `JurisdictionType` is one of the
declared variants — but `ScrapingRun.run_type`/`status` and
`DataQualityIssue.severity` are open string columns: any string within the
declared length bound is representable in them. -/
theorem c3_amended :
    (∀ v : VoteResult, v = .YES ∨ v = .NO ∨ v = .ABSTAIN ∨ v = .ABSENT) ∧
    (∀ t : JurisdictionType,
      t = .FEDERAL ∨ t = .PROVINCIAL ∨ t = .MUNICIPAL) ∧
    (∀ s : String, s.length ≤ 50 →
      scrapingRunRowValid { bogusRun with run_type := s, status := s } =
        true) ∧
    (∀ s : String, s.length ≤ 20 →
      dataQualityIssueRowValid { bogusIssue with severity := s } = true) := by
  refine ⟨?_, ?_, ?_, ?_⟩
  · intro v
    cases v <;> simp
  · intro t
    cases t <;> simp
  · intro s hs
    simp [scrapingRunRowValid, strOK, hs]
  · intro s hs
    simp [dataQualityIssueRowValid, bogusIssue, strOK, optStrOK, hs]
    decide

/-- Witness for `c3_amended` at concrete strings. -/
theorem c3_amended_witness :
    scrapingRunRowValid { bogusRun with run_type := "x", status := "x" } =
      true ∧
    dataQualityIssueRowValid { bogusIssue with severity := "x" } = true :=
  ⟨c3_amended.2.2.1 "x" (by decide), c3_amended.2.2.2 "x" (by decide)⟩

/-- C9: `DatabaseConfig.get_url` returns the password-bearing URL exactly
when the password is a non-empty string (Python truthiness of
`Optional[str]`), and the password-free URL when the password is `None` or
empty; it is a total function of the config fields. -/
theorem c9_get_url (c : DatabaseConfig) :
    (∀ p : String, c.password = some p → p ≠ "" →
      c.get_url = "postgresql://" ++ c.username ++ ":" ++ p ++ "@" ++
        c.host ++ ":" ++ toString c.port ++ "/" ++ c.database) ∧
    (c.password = none ∨ c.password = some "" →
      c.get_url = "postgresql://" ++ c.username ++ "@" ++ c.host ++ ":" ++
        toString c.port ++ "/" ++ c.database) := by
  constructor
  · intro p hp hne
    have hb : (p == "") = false := beq_eq_false_iff_ne.mpr hne
    simp [DatabaseConfig.get_url, pyTruthy, hp, hb]
  · rintro (hp | hp) <;> simp [DatabaseConfig.get_url, pyTruthy, hp]

/-- Witness for `c9_get_url` at concrete configurations. -/
theorem c9_get_url_witness :
    DatabaseConfig.get_url { password := some "pw" } =
      "postgresql://ubuntu:pw@localhost:5432/opencivicdata" ∧
    DatabaseConfig.get_url {} =
      "postgresql://ubuntu@localhost:5432/opencivicdata" :=
  ⟨(c9_get_url { password := some "pw" }).1 "pw" rfl (by decide),
    (c9_get_url {}).2 (Or.inl rfl)⟩

/-! ### `load_jurisdictions` from manage.py (lines 57-152). -/

/-- A `jurisdictions` catalog row as built by `load_jurisdictions`
(models.py lines 61-82; the engine assigns ids). -/
structure JurisdictionRow where
  name : String
  jurisdiction_type : JurisdictionType
  division_id : Option String := none
  province : Option String := none
  url : Option String := none
deriving DecidableEq

/-- One entry of `regions_report.json` as read by `load_jurisdictions`. -/
structure Region where
  directory : String := ""
  name : String := ""
deriving DecidableEq

/-- The parsed `regions_report.json`. -/
structure RegionsReport where
  federal : List Region := []
  provincial : List Region := []
  municipal : List Region := []
deriving DecidableEq

/-- The `province_map` dict from manage.py (lines 79-93). -/
def province_map : List (String × String × String) :=
  [("ab", "Alberta", "AB"),
   ("bc", "British Columbia", "BC"),
   ("mb", "Manitoba", "MB"),
   ("nb", "New Brunswick", "NB"),
   ("nl", "Newfoundland and Labrador", "NL"),
   ("ns", "Nova Scotia", "NS"),
   ("nt", "Northwest Territories", "NT"),
   ("nu", "Nunavut", "NU"),
   ("on", "Ontario", "ON"),
   ("pe", "Prince Edward Island", "PE"),
   ("qc", "Quebec", "QC"),
   ("sk", "Saskatchewan", "SK"),
   ("yt", "Yukon", "YT")]

def provinceLookup (code : String) : Option (String × String) :=
  (province_map.find? (fun e => e.1 == code)).map (fun e => e.2)

/-- The federal loop body (manage.py lines 98-107): every federal region
yields the fixed Canada row. -/
def federalJurisdiction (_ : Region) : JurisdictionRow :=
  { name := "Canada", jurisdiction_type := .FEDERAL,
    division_id := some "ocd-division/country:ca", province := none,
    url := some "https://www.ourcommons.ca/" }

/-- The provincial loop body (manage.py lines 110-124). -/
def provincialJurisdiction (r : Region) : Option JurisdictionRow :=
  if r.directory.startsWith "ca_" then
    let province_code := (r.directory.splitOn "_").getD 1 ""
    match provinceLookup province_code with
    | some pn =>
        some
          { name := pn.1, jurisdiction_type := .PROVINCIAL,
            division_id :=
              some ("ocd-division/country:ca/province:" ++ province_code),
            province := some pn.2, url := none }
    | none => none
  else none

/-- The municipal loop body (manage.py lines 127-146). -/
def municipalJurisdiction (r : Region) : Option JurisdictionRow :=
  let parts := r.directory.splitOn "_"
  if parts.length ≥ 3 then
    let province_code := parts.getD 1 ""
    let city_code := String.intercalate "_" (parts.drop 2)
    match provinceLookup province_code with
    | some pn =>
        some
          { name := (r.name.splitOn ",").getD 0 "",
            jurisdiction_type := .MUNICIPAL,
            division_id :=
              some ("ocd-division/country:ca/province:" ++ province_code ++
                "/municipality:" ++ city_code),
            province := some pn.2, url := none }
    | none => none
  else none

/-- `load_jurisdictions` from manage.py (lines 57-152): if any catalog row
exists the function returns without touching the catalog; if the regions
report file is missing it also returns without inserting; otherwise it
inserts the rows built by the three loops. -/
def load_jurisdictions (existing : List JurisdictionRow)
    (report : Option RegionsReport) : List JurisdictionRow :=
  if existing.length > 0 then existing
  else
    match report with
    | none => existing
    | some regions =>
        existing ++ regions.federal.map federalJurisdiction ++
          regions.provincial.filterMap provincialJurisdiction ++
          regions.municipal.filterMap municipalJurisdiction

/-- C10: with a non-empty catalog, `load_jurisdictions` is a no-op — it
inserts zero rows and leaves every existing row unchanged; conversely any
run that changes the catalog started from an empty catalog with the
regions report present. -/
theorem c10_load_noop (existing : List JurisdictionRow)
    (report : Option RegionsReport) :
    (existing ≠ [] → load_jurisdictions existing report = existing) ∧
    (load_jurisdictions existing report ≠ existing →
      existing = [] ∧ ∃ r, report = some r) := by
  constructor
  · intro hne
    have hpos : existing.length > 0 := List.length_pos.mpr hne
    simp [load_jurisdictions, hpos]
  · intro hchanged
    by_cases hpos : existing.length > 0
    · exact absurd (by simp [load_jurisdictions, hpos]) hchanged
    · have hnil : existing = [] := by
        cases existing with
        | nil => rfl
        | cons a l => simp at hpos
      subst hnil
      cases report with
      | none => exact absurd (by simp [load_jurisdictions]) hchanged
      | some r => exact ⟨rfl, ⟨r, rfl⟩⟩

/-- A pre-existing catalog row. -/
def catalogRow : JurisdictionRow :=
  { name := "Canada", jurisdiction_type := .FEDERAL,
    division_id := some "ocd-division/country:ca" }

/-- Witness for `c10_load_noop`: a singleton catalog is returned unchanged
even with a regions report present. -/
theorem c10_load_noop_witness :
    load_jurisdictions [catalogRow]
      (some { federal := [{ directory := "ca", name := "Canada" }] }) =
      [catalogRow] :=
  (c10_load_noop [catalogRow]
    (some { federal := [{ directory := "ca", name := "Canada" }] })).1
    (by decide)

namespace SpecModel

/-! ### Orchestration core, modelled from the spec.

The Scraper Manager, Run Tracker and Ingestion Writer live in
`src/scrapers/manager.py` and `src/scheduler/tasks.py`, which are imported
by manage.py but are not part of the source tree given here; the
definitions in this namespace are modelled from the specification's
descriptions of those components (§4.1, §4.3, §4.4, §6, §7). -/

/-- Modelled from the spec: a normalized representative record as produced
by the Ingestion Writer's normalization step (§4.3), carrying its natural
key `(jurisdiction_id, external_id)` plus mutable source fields. -/
structure NormalizedRep where
  jurisdiction_id : Nat
  external_id : String
  name : String
  party : Option String := none
deriving DecidableEq

/-- The natural key of a normalized record (§4.3). -/
def natKey (r : NormalizedRep) : Nat × String :=
  (r.jurisdiction_id, r.external_id)

inductive UpsertResult where
  | created
  | updated
deriving DecidableEq

/-- Does a row with the given natural key exist in the store? -/
def hasKey (st : List NormalizedRep) (k : Nat × String) : Bool :=
  st.any (fun s => natKey s == k)

/-- Modelled from the spec: the Ingestion Writer's upsert (§4.3) — "if a
row with the natural key exists, update mutable fields in place and report
`updated`; otherwise insert and report `created`". -/
def upsert (st : List NormalizedRep) (r : NormalizedRep) :
    List NormalizedRep × UpsertResult :=
  if hasKey st (natKey r) then
    (st.map (fun s => if natKey s == natKey r then r else s),
      UpsertResult.updated)
  else (st ++ [r], UpsertResult.created)

/-- Modelled from the spec: the store state after upserting a collector
output sequence in the order produced (§5 ordering guarantee). -/
def ingestState (st : List NormalizedRep) :
    List NormalizedRep → List NormalizedRep
  | [] => st
  | r :: rs => ingestState (upsert st r).1 rs

/-- Modelled from the spec: the run's `records_created` counter — the Run
Tracker increments it once per `created` outcome (§4.4). -/
def createdCount (st : List NormalizedRep) : List NormalizedRep → Nat
  | [] => 0
  | r :: rs =>
    (if (upsert st r).2 == UpsertResult.created then 1 else 0) +
      createdCount (upsert st r).1 rs

theorem hasKey_iff {st : List NormalizedRep} {k : Nat × String} :
    hasKey st k = true ↔ ∃ s ∈ st, natKey s = k := by
  simp [hasKey, List.any_eq_true, beq_iff_eq]

theorem hasKey_upsert_preserve (st : List NormalizedRep) (r : NormalizedRep)
    (k : Nat × String) (h : hasKey st k = true) :
    hasKey (upsert st r).1 k = true := by
  rcases hasKey_iff.mp h with ⟨s, hs, hk⟩
  by_cases hc : hasKey st (natKey r) = true
  · apply hasKey_iff.mpr
    by_cases hsr : natKey s = natKey r
    · refine ⟨r, ?_, hsr ▸ hk⟩
      simp only [upsert, hc, if_true]
      exact List.mem_map.mpr ⟨s, hs, by simp [hsr]⟩
    · refine ⟨s, ?_, hk⟩
      simp only [upsert, hc, if_true]
      exact List.mem_map.mpr ⟨s, hs, by simp [hsr]⟩
  · apply hasKey_iff.mpr
    refine ⟨s, ?_, hk⟩
    simp [upsert, hc, hs]

theorem hasKey_upsert_self (st : List NormalizedRep) (r : NormalizedRep) :
    hasKey (upsert st r).1 (natKey r) = true := by
  by_cases hc : hasKey st (natKey r) = true
  · apply hasKey_iff.mpr
    rcases hasKey_iff.mp hc with ⟨s, hs, hk⟩
    refine ⟨r, ?_, rfl⟩
    simp only [upsert, hc, if_true]
    exact List.mem_map.mpr ⟨s, hs, by simp [hk]⟩
  · apply hasKey_iff.mpr
    refine ⟨r, ?_, rfl⟩
    simp [upsert, hc]

theorem ingestState_preserve (recs : List NormalizedRep) :
    ∀ st k, hasKey st k = true → hasKey (ingestState st recs) k = true := by
  induction recs with
  | nil =>
    intro st k h
    simpa [ingestState] using h
  | cons r rs ih =>
    intro st k h
    simp only [ingestState]
    exact ih _ k (hasKey_upsert_preserve st r k h)

theorem ingestState_hasKey_mem (recs : List NormalizedRep) :
    ∀ st, ∀ r ∈ recs, hasKey (ingestState st recs) (natKey r) = true := by
  induction recs with
  | nil =>
    intro st r hr
    simp at hr
  | cons a rs ih =>
    intro st r hr
    rcases List.mem_cons.mp hr with rfl | hr'
    · simp only [ingestState]
      exact ingestState_preserve rs _ _ (hasKey_upsert_self st r)
    · simp only [ingestState]
      exact ih _ r hr'

theorem upsert_updated_of_hasKey (st : List NormalizedRep)
    (r : NormalizedRep) (h : hasKey st (natKey r) = true) :
    (upsert st r).2 = UpsertResult.updated ∧
    (upsert st r).1.length = st.length := by
  simp [upsert, h]

theorem ingest_no_creates (recs : List NormalizedRep) :
    ∀ st, (∀ r ∈ recs, hasKey st (natKey r) = true) →
      createdCount st recs = 0 ∧
      (ingestState st recs).length = st.length := by
  induction recs with
  | nil =>
    intro st _
    simp [createdCount, ingestState]
  | cons r rs ih =>
    intro st h
    have hr := h r (List.mem_cons_self r rs)
    have hup := upsert_updated_of_hasKey st r hr
    have hrest : ∀ r' ∈ rs, hasKey (upsert st r).1 (natKey r') = true :=
      fun r' hr' =>
        hasKey_upsert_preserve st r _ (h r' (List.mem_cons_of_mem r hr'))
    have hih := ih (upsert st r).1 hrest
    constructor
    · simp only [createdCount, hup.1]
      simp [hih.1]
    · simp only [ingestState]
      rw [hih.2, hup.2]

/-- C4: upsert is idempotent — after ingesting a collector output sequence,
ingesting the identical sequence again performs zero creates and leaves the
row count of the store unchanged. -/
theorem c4_upsert_idempotent (init recs : List NormalizedRep) :
    createdCount (ingestState init recs) recs = 0 ∧
    (ingestState (ingestState init recs) recs).length =
      (ingestState init recs).length :=
  ingest_no_creates recs (ingestState init recs)
    (fun r hr => ingestState_hasKey_mem recs init r hr)

inductive RunStatusM where
  | running
  | completed
  | failed
deriving DecidableEq

inductive RunTypeM where
  | scheduled
  | manual
  | test
deriving DecidableEq

/-- Modelled from the spec: the Run Tracker's view of a ScrapingRun row
(§3, §4.4). -/
structure RunRow where
  id : Nat
  jurisdiction_id : Nat
  run_type : RunTypeM
  status : RunStatusM
  start_time : Nat
  end_time : Option Nat := none
  records_processed : Nat := 0
  records_created : Nat := 0
  records_updated : Nat := 0
  errors_count : Nat := 0
deriving DecidableEq

def isRunningFor (j : Nat) (r : RunRow) : Bool :=
  r.jurisdiction_id == j && r.status == RunStatusM.running

def hasRunningRun (runs : List RunRow) (j : Nat) : Bool :=
  runs.any (isRunningFor j)

def runningCount (runs : List RunRow) (j : Nat) : Nat :=
  (runs.filter (isRunningFor j)).length

/-- At most one `running` ScrapingRun per jurisdiction (§4.4 invariant). -/
def atMostOneRunning (runs : List RunRow) : Prop :=
  ∀ j, runningCount runs j ≤ 1

/-- Modelled from the spec: Run Tracker `open` (§4.4) — "creates the row in
`running`, `start_time = now`, counters zeroed. Fails with
`ConcurrentRunError` if an existing `running` row already exists for that
jurisdiction"; on failure nothing is written, so the caller's state is the
unchanged `runs`. -/
def openRun (runs : List RunRow) (j : Nat) (rt : RunTypeM)
    (newId now : Nat) : Except String (List RunRow) :=
  if hasRunningRun runs j then Except.error "ConcurrentRunError"
  else
    Except.ok
      ({ id := newId, jurisdiction_id := j, run_type := rt,
         status := RunStatusM.running, start_time := now } :: runs)

theorem runningCount_cons (r : RunRow) (runs : List RunRow) (j : Nat) :
    runningCount (r :: runs) j =
      (if isRunningFor j r then 1 else 0) + runningCount runs j := by
  simp only [runningCount, List.filter_cons]
  by_cases h : isRunningFor j r = true
  · simp [h]
    omega
  · simp [h]

theorem runningCount_eq_zero (runs : List RunRow) (j : Nat)
    (h : hasRunningRun runs j = false) : runningCount runs j = 0 := by
  induction runs with
  | nil => rfl
  | cons r rs ih =>
    simp only [hasRunningRun, List.any_cons] at h
    have h1 : isRunningFor j r = false := by
      cases hb : isRunningFor j r
      · rfl
      · rw [hb] at h
        simp at h
    have h2 : hasRunningRun rs j = false := by
      cases hb : hasRunningRun rs j
      · rfl
      · simp only [hasRunningRun] at hb
        rw [hb] at h
        simp at h
    rw [runningCount_cons, ih h2, h1]
    simp

/-- C5: `open` is guarded — with a `running` row already present for the
jurisdiction it fails with `ConcurrentRunError` and writes nothing (the
error branch returns no state, so the store keeps exactly the old rows),
and every successful `open` preserves the at-most-one-running-per-
jurisdiction invariant. -/
theorem c5_open_guard (runs : List RunRow) (j : Nat) (rt : RunTypeM)
    (newId now : Nat) :
    (hasRunningRun runs j = true →
      openRun runs j rt newId now = Except.error "ConcurrentRunError") ∧
    (∀ runs2, openRun runs j rt newId now = Except.ok runs2 →
      atMostOneRunning runs → atMostOneRunning runs2) := by
  constructor
  · intro h
    simp [openRun, h]
  · intro runs2 hok hinv
    have hno : hasRunningRun runs j = false := by
      by_contra hc
      rw [Bool.not_eq_false] at hc
      simp [openRun, hc] at hok
    have hruns2 : runs2 =
        { id := newId, jurisdiction_id := j, run_type := rt,
          status := RunStatusM.running, start_time := now } :: runs := by
      simp [openRun, hno] at hok
      exact hok.symm
    subst hruns2
    intro j2
    rw [runningCount_cons]
    by_cases hj : j2 = j
    · rw [hj, runningCount_eq_zero runs j hno]
      simp [isRunningFor]
    · have hcond : isRunningFor j2
          { id := newId, jurisdiction_id := j, run_type := rt,
            status := RunStatusM.running, start_time := now } = false := by
        simp only [isRunningFor]
        simp [beq_eq_false_iff_ne]
        exact fun hc => absurd hc.symm hj
      rw [hcond]
      simpa using hinv j2

/-- A `running` provenance row for jurisdiction 3. -/
def runningRow : RunRow :=
  { id := 1, jurisdiction_id := 3, run_type := RunTypeM.manual,
    status := RunStatusM.running, start_time := 0 }

/-- Witness for `c5_open_guard`: a second open for jurisdiction 3 fails
with `ConcurrentRunError`, and a successful open preserves the invariant. -/
theorem c5_open_guard_witness :
    openRun [runningRow] 3 RunTypeM.manual 2 5 =
      Except.error "ConcurrentRunError" ∧
    atMostOneRunning [runningRow] :=
  ⟨(c5_open_guard [runningRow] 3 RunTypeM.manual 2 5).1 (by decide),
    (c5_open_guard [] 3 RunTypeM.manual 1 0).2 [runningRow] rfl
      (fun j => by simp [runningCount])⟩

/-- Modelled from the spec: in test mode the per-jurisdiction record cap is
forced to "a small ceiling (independent of any caller-supplied value)"
(§4.1); the ceiling's concrete value lives in the missing ScraperManager,
so a fixed constant stands for it here — the proved properties do not
depend on its value. -/
def testModeCap : Nat := 5

/-- Modelled from the spec: the cap in effect for one jurisdiction (§4.1):
forced to `testModeCap` in test mode, the caller's cap (if any) otherwise. -/
def effectiveCap (test_mode : Bool) (max_records : Option Nat) :
    Option Nat :=
  if test_mode then some testModeCap else max_records

/-- Modelled from the spec: a cap "truncates each collector's sequence
after that many records" (§4.1). -/
def applyCap {α : Type _} : Option Nat → List α → List α
  | none, l => l
  | some n, l => l.take n

/-- Modelled from the spec: the `records_processed` a jurisdiction's run
reports — the length of the capped collector output. -/
def recordsProcessed (test_mode : Bool) (max_records : Option Nat)
    (output : List NormalizedRep) : Nat :=
  (applyCap (effectiveCap test_mode max_records) output).length

/-- C6: with a caller-supplied cap of `N` (outside test mode, where the
caller's cap is the one in effect) no run reports more than `N` records
processed; and in test mode the effective cap is the fixed ceiling
`testModeCap` whatever the caller supplied, so no run reports more than
`testModeCap` records processed. -/
theorem c6_cap_enforced (output : List NormalizedRep) (N : Nat)
    (m : Option Nat) :
    recordsProcessed false (some N) output ≤ N ∧
    effectiveCap true m = some testModeCap ∧
    recordsProcessed true m output ≤ testModeCap := by
  refine ⟨?_, rfl, ?_⟩
  · simp only [recordsProcessed, effectiveCap, applyCap, if_neg]
    simp [List.length_take]
  · simp only [recordsProcessed, effectiveCap, applyCap, if_pos]
    simp [List.length_take]

/-- The outcome the orchestrator records for one jurisdiction. -/
structure JurisdictionOutcome where
  jurisdiction : Nat
  status : RunStatusM
  processed : Nat
deriving DecidableEq

/-- Modelled from the spec: one jurisdiction's pass (§4.1, §7): a fatal
`CollectorError` (the `Except.error` case of the collector) closes the run
`failed`; otherwise the output is ingested and the run closes `completed`. -/
def processJurisdiction
    (collect : Nat → Except String (List NormalizedRep)) (j : Nat) :
    JurisdictionOutcome :=
  match collect j with
  | Except.error _ =>
      { jurisdiction := j, status := RunStatusM.failed, processed := 0 }
  | Except.ok recs =>
      { jurisdiction := j, status := RunStatusM.completed,
        processed := recs.length }

/-- Modelled from the spec: the orchestration pass "processes jurisdictions
independently; failure in one jurisdiction's collector never aborts the
others" (§4.1) — each jurisdiction's CollectorError is recovered locally
and the loop continues. -/
def runAllScrapers (collect : Nat → Except String (List NormalizedRep))
    (jurs : List Nat) : List JurisdictionOutcome :=
  jurs.map (processJurisdiction collect)

/-- C7: per-jurisdiction failure isolation — if jurisdiction `a`'s
collector raises a CollectorError while jurisdiction `b`'s collector
succeeds, the same orchestration pass still records `a` as `failed` and
`b` as `completed`; `a`'s failure does not prevent `b` from being
processed. -/
theorem c7_isolation (collect : Nat → Except String (List NormalizedRep))
    (jurs : List Nat) (a b : Nat) (ha : a ∈ jurs) (hb : b ∈ jurs)
    (_hab : a ≠ b) (e : String) (herr : collect a = Except.error e)
    (recs : List NormalizedRep) (hok : collect b = Except.ok recs) :
    (∃ res ∈ runAllScrapers collect jurs,
      res.jurisdiction = a ∧ res.status = RunStatusM.failed) ∧
    (∃ res ∈ runAllScrapers collect jurs,
      res.jurisdiction = b ∧ res.status = RunStatusM.completed) := by
  constructor
  · refine ⟨processJurisdiction collect a,
      List.mem_map_of_mem (processJurisdiction collect) ha, ?_, ?_⟩ <;>
      simp [processJurisdiction, herr]
  · refine ⟨processJurisdiction collect b,
      List.mem_map_of_mem (processJurisdiction collect) hb, ?_, ?_⟩ <;>
      simp [processJurisdiction, hok]

/-- A two-jurisdiction collector: jurisdiction 1's source is unreachable,
jurisdiction 2 yields an empty record list. -/
def demoCollect : Nat → Except String (List NormalizedRep) :=
  fun j => if j == 1 then Except.error "source unreachable"
    else Except.ok []

/-- Witness for `c7_isolation` on the two-jurisdiction pass. -/
theorem c7_isolation_witness :
    (∃ res ∈ runAllScrapers demoCollect [1, 2],
      res.jurisdiction = 1 ∧ res.status = RunStatusM.failed) ∧
    (∃ res ∈ runAllScrapers demoCollect [1, 2],
      res.jurisdiction = 2 ∧ res.status = RunStatusM.completed) :=
  c7_isolation demoCollect [1, 2] 1 2 (by decide) (by decide) (by decide)
    "source unreachable" rfl [] rfl

/-- One entry of the `errors` list of the aggregate result
(manage.py lines 177-180; spec §6). -/
structure ScraperErrorEntry where
  jurisdiction : String
  scraper : String
  error : String
deriving DecidableEq

/-- Modelled from the spec: the aggregate result of a run, with exactly the
fields that `run_scrapers` reads from `run_all_scrapers`'s result dict
(manage.py lines 169-180; spec §6). -/
structure RunSummary where
  total_jurisdictions : Nat
  successful_scrapers : Nat
  failed_scrapers : Nat
  total_records_processed : Nat
  total_records_created : Nat
  total_records_updated : Nat
  errors : List ScraperErrorEntry
deriving DecidableEq

/-- JSON values as far as the result file's top level is concerned: counter
fields are numbers, `errors` is an array of flat string objects. -/
inductive JVal where
  | num (n : Nat)
  | arr (entries : List (List (String × String)))

def errorEntryJson (e : ScraperErrorEntry) : List (String × String) :=
  [("jurisdiction", e.jurisdiction), ("scraper", e.scraper),
   ("error", e.error)]

/-- Modelled from the spec: the JSON object `run_scrapers` dumps verbatim
into the timestamped result file (manage.py lines 183-184); its keys are
RunSummary's fields (§6). -/
def summaryJson (s : RunSummary) : List (String × JVal) :=
  [("total_jurisdictions", JVal.num s.total_jurisdictions),
   ("successful_scrapers", JVal.num s.successful_scrapers),
   ("failed_scrapers", JVal.num s.failed_scrapers),
   ("total_records_processed", JVal.num s.total_records_processed),
   ("total_records_created", JVal.num s.total_records_created),
   ("total_records_updated", JVal.num s.total_records_updated),
   ("errors", JVal.arr (s.errors.map errorEntryJson))]

/-- The aggregate summary lines printed by `run_scrapers`
(manage.py lines 169-180). -/
def printedSummary (s : RunSummary) : List String :=
  ["=== Results ===",
   "Total jurisdictions: " ++ toString s.total_jurisdictions,
   "Successful scrapers: " ++ toString s.successful_scrapers,
   "Failed scrapers: " ++ toString s.failed_scrapers,
   "Total records processed: " ++ toString s.total_records_processed,
   "Total records created: " ++ toString s.total_records_created,
   "Total records updated: " ++ toString s.total_records_updated] ++
  (if s.errors.isEmpty then [] else
    "=== Errors ===" ::
      s.errors.map (fun e =>
        "❌ " ++ e.jurisdiction ++ " (" ++ e.scraper ++ "): " ++ e.error))

/-- C8: a successful `run` invocation prints the aggregate summary and
serialises a JSON object whose top-level fields are exactly
total_jurisdictions, successful_scrapers, failed_scrapers,
total_records_processed, total_records_created, total_records_updated and
errors, where each errors entry has exactly the fields jurisdiction,
scraper and error. -/
theorem c8_run_output (s : RunSummary) :
    (summaryJson s).map Prod.fst =
      ["total_jurisdictions", "successful_scrapers", "failed_scrapers",
       "total_records_processed", "total_records_created",
       "total_records_updated", "errors"] ∧
    (∀ e ∈ s.errors, (errorEntryJson e).map Prod.fst =
      ["jurisdiction", "scraper", "error"]) ∧
    ("Total records processed: " ++ toString s.total_records_processed) ∈
      printedSummary s := by
  refine ⟨rfl, fun e _ => rfl, ?_⟩
  simp [printedSummary]

/-- The aggregate of spec §8's two-jurisdiction scenario. -/
def demoSummary : RunSummary :=
  { total_jurisdictions := 2, successful_scrapers := 1,
    failed_scrapers := 1, total_records_processed := 3,
    total_records_created := 2, total_records_updated := 1,
    errors := [{ jurisdiction := "Ontario", scraper := "ca_on",
                 error := "source unreachable" }] }

/-- Witness for `c8_run_output` at the concrete summary `demoSummary`. -/
theorem c8_run_output_witness :
    (summaryJson demoSummary).map Prod.fst =
      ["total_jurisdictions", "successful_scrapers", "failed_scrapers",
       "total_records_processed", "total_records_created",
       "total_records_updated", "errors"] ∧
    (errorEntryJson { jurisdiction := "Ontario", scraper := "ca_on",
                      error := "source unreachable" }).map Prod.fst =
      ["jurisdiction", "scraper", "error"] :=
  ⟨(c8_run_output demoSummary).1,
    (c8_run_output demoSummary).2.1
      { jurisdiction := "Ontario", scraper := "ca_on",
        error := "source unreachable" } (by decide)⟩

end SpecModel

end OpenPolicy
